import Mathlib

/-!
Verification development for the Bakaloria book-assistant service.

The Python sources are shallowly embedded as Lean definitions:

* `teacher_agent/tools.py` — `get_book_page` (the Page Resolver), its Google
  Cloud Storage lookup (modelled by `GcsBehavior`, with the honest in-memory
  bucket `Bucket.behavior`), its public-URL fallback, and its local-files mode.
* `teacher_agent/service.py` — `process_agent_query` (the Query Façade) and
  `ask_agent`, with the external agent runtime modelled as a function from the
  session history and the query to an event stream.
* `api.py` — the `/query`, `/ask` and `/query/batch` endpoint handlers
  (`query_agent`, `ask_agent_simple`, `batch_query`), with pydantic's
  response-model validation made explicit.

Python exceptions are modelled as `Except String`; each f-string message
template in the source is modelled by one constructor of `Msg`, carrying
exactly the template's arguments.  Byte strings are `List Nat`.
-/

/-- Least-significant comparison used to model Python's string ordering when
the source calls `sorted(...)`: pointwise comparison of the character lists. -/
def charListLt : List Char → List Char → Bool
  | [], [] => false
  | [], _ :: _ => true
  | _ :: _, [] => false
  | a :: as, b :: bs =>
    if a.toNat < b.toNat then true
    else if b.toNat < a.toNat then false
    else charListLt as bs

/-- Boolean `≤` on strings via `charListLt`; only used to model `sorted`. -/
def strLe (a b : String) : Bool := !(charListLt b.data a.data)

/-- Insertion of a string into a sorted list (models one step of `sorted`). -/
def insertSorted (x : String) : List String → List String
  | [] => [x]
  | y :: ys => if strLe x y then x :: y :: ys else y :: insertSorted x ys

/-- Insertion sort, modelling Python's `sorted` on a list of strings (the
claims only inspect membership, which sorting does not change). -/
def sortStrings : List String → List String
  | [] => []
  | x :: xs => insertSorted x (sortStrings xs)

/-- Deduplication keeping the first occurrence; models collecting the keys
into a Python `set` before sorting (the claims only inspect membership). -/
def dedupStr : List String → List String
  | [] => []
  | x :: xs =>
    let r := dedupStr xs
    if r.contains x then r else x :: r

/-- Boolean string-prefix test on the underlying character lists; models the
object-store `prefix=` filter of `bucket.list_blobs(prefix=...)`. -/
def strIsPrefix (p s : String) : Bool := p.data.isPrefixOf s.data

/-- Characters remaining after the first occurrence of `"page_"`, or `none`
when the separator does not occur.  Together with `upToPageSep` this models
the source's `name.split("page_")[1]` (the `none` case is Python's
`IndexError`, caught and skipped by the source). -/
def afterPageSep : List Char → Option (List Char)
  | 'p' :: 'a' :: 'g' :: 'e' :: '_' :: rest => some rest
  | _ :: rest => afterPageSep rest
  | [] => none

/-- Characters up to (excluding) the next occurrence of `"page_"`; the second
half of the model of `name.split("page_")[1]`. -/
def upToPageSep : List Char → List Char
  | 'p' :: 'a' :: 'g' :: 'e' :: '_' :: _ => []
  | c :: rest => c :: upToPageSep rest
  | [] => []

/-- Removal of every (left-to-right, non-overlapping) occurrence of `".png"`;
models the source's `.replace(".png", "")`. -/
def stripPng : List Char → List Char
  | '.' :: 'p' :: 'n' :: 'g' :: rest => stripPng rest
  | c :: rest => c :: stripPng rest
  | [] => []

/-- Digit run of a Python integer literal: digits possibly separated by single
underscores, as accepted by `int(...)` (e.g. `"1_0"` parses to `10`). -/
def pyDigitsGo (acc : Nat) : List Char → Option Nat
  | [] => some acc
  | '_' :: d :: rest =>
    if d.isDigit then pyDigitsGo (acc * 10 + (d.toNat - 48)) rest else none
  | '_' :: [] => none
  | d :: rest =>
    if d.isDigit then pyDigitsGo (acc * 10 + (d.toNat - 48)) rest else none

/-- Nonempty digit run starting with a digit, as accepted by `int(...)`. -/
def pyNatOfChars : List Char → Option Nat
  | [] => none
  | c :: rest => if c.isDigit then pyDigitsGo (c.toNat - 48) rest else none

/-- Python's `int(s)` on a string (ASCII fragment): surrounding whitespace is
stripped, an optional sign is accepted, and the rest must be a digit run;
`none` models the `ValueError` the source catches. -/
def pyint (s : String) : Option Int :=
  let t := ((s.data.dropWhile Char.isWhitespace).reverse.dropWhile
    Char.isWhitespace).reverse
  match t with
  | '+' :: rest => (pyNatOfChars rest).map Int.ofNat
  | '-' :: rest => (pyNatOfChars rest).map (fun n => -(n : Int))
  | rest => (pyNatOfChars rest).map Int.ofNat

/-- Boolean string-suffix test; models the source's `name.endswith(".png")`. -/
def strEndsWith (s suffix_ : String) : Bool := suffix_.data.isSuffixOf s.data

/-- Page number parsed from one listed blob name, following the source:
keep names ending in `".png"`, take `name.split("page_")[1]`, delete the
`".png"` occurrences, and run `int(...)`; any failure yields `none`
(the source's `except (IndexError, ValueError): continue`). -/
def parsePageNum (name : String) : Option Int :=
  if strEndsWith name ".png" then
    match afterPageSep name.data with
    | some tail => pyint (String.mk (stripPng (upToPageSep tail)))
    | none => none
  else none

/-- Page numbers parsed out of a listing, unparsable names ignored; models the
source's accumulation loop over `bucket.list_blobs(prefix=f"{book_name}/page_")`. -/
def parsePages (names : List String) : List Int := names.filterMap parsePageNum

/-- Characters before the first `/` of a key, `none` when there is none. -/
def beforeSlash : List Char → Option (List Char)
  | [] => none
  | '/' :: _ => some []
  | c :: rest => (beforeSlash rest).map (fun cs => c :: cs)

/-- Segment of an object key before its first `/`, or `none` when the key
contains no `/`; models `b.name.split("/")[0]` guarded by `"/" in b.name`. -/
def topPrefixOf (name : String) : Option String :=
  match beforeSlash name.data with
  | some cs => some (String.mk cs)
  | none => none

/-- Sorted list of distinct top-level key segments across a whole listing;
models the source's `available_books = sorted(prefixes)` where `prefixes`
is the set of `b.name.split("/")[0]` over keys containing `/`. -/
def availableBooks (names : List String) : List String :=
  sortStrings (dedupStr (names.filterMap topPrefixOf))

/-- Inline image payload; models `types.Part.from_bytes(data=..., mime_type=...)`. -/
structure ImagePart where
  data : List Nat
  mime_type : String
deriving DecidableEq, Repr

/-- Message of a Page Resolver result.  Each constructor models one f-string
template of `get_book_page`, carrying exactly the template's arguments:

* `bookNotFound book books` —
  `f"Book '{book_name}' not found. Available books: {', '.join(available_books)}"`;
* `pageNotFound page book range` —
  `f"Page {page_number} not found in book '{book_name}'. Available pages: {page_range}"`,
  where `range = some (a, b)` models `f"{a}-{b}"` and `none` models `"none"`;
* `localPageNotFound page book` —
  `f"Page {page_number} not found in book '{book_name}' (local mode)"`;
* `successMsg page book source` —
  `f"Successfully retrieved page {page_number} from book '{book_name}' ({source})"`;
* `storageError err` — `f"Error reading image file: {err}"` where `err` is the
  text of the caught exception. -/
inductive Msg where
  | bookNotFound (book : String) (books : List String)
  | pageNotFound (page : Int) (book : String) (range : Option (Int × Int))
  | localPageNotFound (page : Int) (book : String)
  | successMsg (page : Int) (book : String) (source : String)
  | storageError (err : String)
deriving DecidableEq, Repr

/-- Dictionary returned by `get_book_page`: keys `status`, `message`,
`book_name`, `page_number` are always present; the `image` key is modelled by
an `Option` (`none` = key absent). -/
structure PageResult where
  status : String
  message : Msg
  image : Option ImagePart
  book_name : String
  page_number : Int
deriving DecidableEq, Repr

/-- Fixed GCS bucket name from the source. -/
def BUCKET_NAME : String := "bakaloria-ai-assistance-books"

/-- The source's `page_filename = f"page_{page_number}.png"`. -/
def page_filename (page_number : Int) : String :=
  "page_" ++ toString page_number ++ ".png"

/-- The source's `blob_path = f"{book_name}/{page_filename}"`. -/
def blob_path (book_name : String) (page_number : Int) : String :=
  book_name ++ "/" ++ page_filename page_number

/-- The source's fallback URL
`f"https://storage.googleapis.com/{BUCKET_NAME}/{blob_path}"`. -/
def publicUrl (book_name : String) (page_number : Int) : String :=
  "https://storage.googleapis.com/" ++ BUCKET_NAME ++ "/"
    ++ blob_path book_name page_number

/-- One possible behaviour of the primary object store as seen through the
five operations `get_book_page` performs on it; each may raise
(`Except.error` models a Python exception propagating out of the call). -/
structure GcsBehavior where
  blobExists : String → Except String Bool
  listNames : String → Except String (List String)
  listFirst : String → Except String (List String)
  listAll : Except String (List String)
  download : String → Except String (List Nat)

/-- Concrete object store contents: a list of `(key, bytes)` objects. -/
structure Bucket where
  blobs : List (String × List Nat)
deriving DecidableEq, Repr

/-- Keys of the bucket's objects, in listing order. -/
def Bucket.names (b : Bucket) : List String := b.blobs.map (fun kv => kv.1)

/-- Existence check of `bucket.blob(key).exists()` against concrete contents. -/
def Bucket.blobExists (b : Bucket) (key : String) : Bool :=
  b.blobs.any (fun kv => kv.1 == key)

/-- Bytes stored under a key (first match), `none` when absent. -/
def Bucket.download? (b : Bucket) (key : String) : Option (List Nat) :=
  (b.blobs.find? (fun kv => kv.1 == key)).map (fun kv => kv.2)

/-- Keys matching a listing request `list_blobs(prefix=p)`. -/
def Bucket.listNames (b : Bucket) (p : String) : List String :=
  b.names.filter (fun nm => strIsPrefix p nm)

/-- The honest behaviour of a concrete bucket: no operation raises, existence
and download agree with the stored objects, listings filter by key prefix,
and `max_results=1` truncates the listing. -/
def Bucket.behavior (b : Bucket) : GcsBehavior where
  blobExists := fun key => .ok (b.blobExists key)
  listNames := fun p => .ok (b.listNames p)
  listFirst := fun p => .ok ((b.listNames p).take 1)
  listAll := .ok b.names
  download := fun key =>
    match b.download? key with
    | some bs => .ok bs
    | none => .error ("404 no such object: " ++ key)

/-- Result dictionary of the book-not-found branch of `get_book_page`. -/
def bookNotFoundResult (book_name : String) (page_number : Int)
    (books : List String) : PageResult :=
  ⟨"error", .bookNotFound book_name books, none, book_name, page_number⟩

/-- The source's `page_range`: `f"{min(...)}-{max(...)}"` over the parsed
pages when any exist, `"none"` otherwise. -/
def pageRangeOf (pages : List Int) : Option (Int × Int) :=
  match pages.min?, pages.max? with
  | some a, some b => some (a, b)
  | _, _ => none

/-- Result dictionary of the page-not-found branch of `get_book_page`. -/
def pageNotFoundResult (book_name : String) (page_number : Int)
    (pages : List Int) : PageResult :=
  ⟨"error", .pageNotFound page_number book_name (pageRangeOf pages), none,
    book_name, page_number⟩

/-- Success dictionary of `get_book_page` (the image is wrapped by
`types.Part.from_bytes(data=image_bytes, mime_type="image/png")`). -/
def successResult (book_name : String) (page_number : Int)
    (image_bytes : List Nat) (source : String) : PageResult :=
  ⟨"success", .successMsg page_number book_name source,
    some ⟨image_bytes, "image/png"⟩, book_name, page_number⟩

/-- Storage-error dictionary produced by the outer `except Exception as e`
of `get_book_page`; `err` is `str(e)`. -/
def storageErrorResult (book_name : String) (page_number : Int)
    (err : String) : PageResult :=
  ⟨"error", .storageError err, none, book_name, page_number⟩

/-- Body of the inner `try` of `get_book_page` (the primary-store path):
either an early `return` of a not-found dictionary (`Sum.inl`), the
downloaded bytes (`Sum.inr`), or a raised exception (`Except.error`),
following the source line by line:

1. check `blob.exists()` for `blob_path`;
2. if present, `blob.download_as_bytes()`;
3. if absent, list `f"{book_name}/page_"`, parse the page numbers;
4. if none parsed, list `f"{book_name}/"` with `max_results=1`; if that is
   empty too, list the whole bucket and return the book-not-found dictionary;
5. otherwise return the page-not-found dictionary with the min–max range. -/
def gcsInner (g : GcsBehavior) (book_name : String) (page_number : Int) :
    Except String (PageResult ⊕ List Nat) :=
  match g.blobExists (blob_path book_name page_number) with
  | .error e => .error e
  | .ok true =>
    match g.download (blob_path book_name page_number) with
    | .error e => .error e
    | .ok image_bytes => .ok (.inr image_bytes)
  | .ok false =>
    match g.listNames (book_name ++ "/page_") with
    | .error e => .error e
    | .ok names =>
      let available_pages := parsePages names
      if available_pages.isEmpty then
        match g.listFirst (book_name ++ "/") with
        | .error e => .error e
        | .ok book_blobs =>
          if book_blobs.isEmpty then
            match g.listAll with
            | .error e => .error e
            | .ok allNames =>
              .ok (.inl (bookNotFoundResult book_name page_number
                (availableBooks allNames)))
          else
            .ok (.inl (pageNotFoundResult book_name page_number
              available_pages))
      else
        .ok (.inl (pageNotFoundResult book_name page_number available_pages))

/-- One possible behaviour of `requests.get(public_url)`: either a raised
exception (network failure) or a `(status_code, content)` response. -/
def Fallback : Type := String → Except String (Nat × List Nat)

/-- Local-files store for the `USE_GCS = False` development mode, keyed by
`"{book_name}/{page_filename}"` (the path below the `books` directory). -/
def lookupLocal (files : List (String × List Nat)) (key : String) :
    Option (List Nat) :=
  (files.find? (fun kv => kv.1 == key)).map (fun kv => kv.2)

/-- The source's compile-time constant `USE_GCS = True`. -/
def USE_GCS : Bool := true

/-- Shallow embedding of `get_book_page(book_name, page_number)` from
`teacher_agent/tools.py`.  `use_gcs` is the source's `USE_GCS` constant
(`true` in the deployed code), `g` the behaviour of the primary store,
`fetchUrl` the behaviour of `requests.get`, and `localFiles` the local
development fixture.  The outer `except Exception as e` of the source is the
`storageErrorResult` cases; the inner `except Exception as gcs_error` is the
`Except.error gcs_error` case of `gcsInner`, answered by the public-URL
fallback whose non-200 answer re-raises
`f"Failed to fetch from GCS: {gcs_error}"` into the outer handler. -/
def get_book_page (use_gcs : Bool) (g : GcsBehavior) (fetchUrl : Fallback)
    (localFiles : List (String × List Nat)) (book_name : String)
    (page_number : Int) : PageResult :=
  if use_gcs then
    match gcsInner g book_name page_number with
    | .ok (.inl r) => r
    | .ok (.inr image_bytes) =>
      successResult book_name page_number image_bytes "GCS"
    | .error gcs_error =>
      match fetchUrl (publicUrl book_name page_number) with
      | .error e => storageErrorResult book_name page_number e
      | .ok (statusCode, content) =>
        if statusCode != 200 then
          storageErrorResult book_name page_number
            ("Failed to fetch from GCS: " ++ gcs_error)
        else
          successResult book_name page_number content "GCS"
  else
    match lookupLocal localFiles (book_name ++ "/" ++ page_filename page_number) with
    | none =>
      ⟨"error", .localPageNotFound page_number book_name, none, book_name,
        page_number⟩
    | some image_bytes => successResult book_name page_number image_bytes "local"

/-- One event forwarded by the agent runtime's event loop.  `texts` are the
`part.text` values of `event.content.parts` (`none` for a part without text;
an event whose `content` is empty is modelled by `texts = []`), and `final`
models `event.is_final_response()`. -/
structure Event where
  texts : List (Option String)
  final : Bool
deriving DecidableEq, Repr

/-- Text fragments collected from one event by the source's
`if part.text: response_parts.append(part.text)` (Python truthiness drops
both `None` and the empty string). -/
def extractTexts (e : Event) : List String :=
  (e.texts.filterMap id).filter (fun t => t != "")

/-- One run of the external agent runtime, as observed by the Query Façade:
the list of events it yields in order, and, when it raises, the message of
the exception thrown after those events (before any further event). -/
def RunStream : Type := List Event × Option String

/-- Behaviour of `runner.run_async` as a function of the session history the
runner finds for the addressed session and of the new user message. -/
def Runtime : Type := List String → String → RunStream

/-- Drain of the event stream by the source's `async for` loop: fragments of
each event are appended, the loop `break`s at the first final event, and a
pending exception surfaces only if no final event stops the iteration first. -/
def drainStream : List Event → Option String → Except String (List String)
  | [], some e => .error e
  | [], none => .ok []
  | ev :: rest, exc =>
    if ev.final then .ok (extractTexts ev)
    else
      match drainStream rest exc with
      | .error e => .error e
      | .ok parts => .ok (extractTexts ev ++ parts)

/-- One session record of the ADK session service, keyed by application name,
user id and session id; `history` is the accumulated conversation content the
runner finds when running against this session. -/
structure Session where
  appName : String
  userId : String
  id : String
  history : List String
deriving DecidableEq, Repr

/-- State of one `InMemorySessionService` instance. -/
structure SessionService where
  sessions : List Session
deriving DecidableEq, Repr

/-- Lookup of `session_service.get_session(app_name, user_id, session_id)`:
the stored session when present, `None` otherwise. -/
def get_session (svc : SessionService) (app_name user_id session_id : String) :
    Option Session :=
  svc.sessions.find? (fun s =>
    s.appName == app_name && s.userId == user_id && s.id == session_id)

/-- Effect of `session_service.create_session(app_name, user_id)`: a new
session with a freshly minted id (`fresh`, the UUID the service draws) and
empty history, added to the store. -/
def create_session (svc : SessionService) (app_name user_id fresh : String) :
    SessionService × Session :=
  let s : Session := ⟨app_name, user_id, fresh, []⟩
  (⟨svc.sessions ++ [s]⟩, s)

/-- Result dictionary of `process_agent_query`. -/
structure QueryResult where
  response : String
  session_id : Option String
  status : String
  error : Option String
deriving DecidableEq, Repr

/-- Shallow embedding of `process_agent_query` from
`teacher_agent/service.py`.  Mirroring the source, a brand-new
`InMemorySessionService()` is constructed inside every call, the supplied
`session_id` is looked up in it (falling back to `create_session` when the
lookup misses), the runner is started against the resolved session, and the
drained stream is folded into the result dictionary; any exception yields
`{response: "", session_id: <input session_id>, status: "error",
error: str(e)}`.  `fresh` is the id `create_session` would mint. -/
def process_agent_query (rt : Runtime) (query user_id : String)
    (session_id : Option String) (app_name fresh : String) : QueryResult :=
  let session_service : SessionService := ⟨[]⟩
  let session : Session :=
    match session_id with
    | some sid =>
      match get_session session_service app_name user_id sid with
      | some s => s
      | none => (create_session session_service app_name user_id fresh).2
    | none => (create_session session_service app_name user_id fresh).2
  let events := rt session.history query
  match drainStream events.1 events.2 with
  | .ok response_parts =>
    ⟨String.join response_parts, some session.id, "success", none⟩
  | .error e => ⟨"", session_id, "error", some e⟩

/-- Python's f-string rendering of a value that may be `None`; used where the
source interpolates `result['error']`. -/
def pyStrOfOpt : Option String → String
  | some s => s
  | none => "None"

/-- Shallow embedding of `ask_agent` from `teacher_agent/service.py`: a call
to `process_agent_query` with the default `user_id="default_user"` and
`app_name="book_assistant"`, projected to the response text on success and to
`f"Error: {result['error']}"` otherwise. -/
def ask_agent (rt : Runtime) (query : String) (session_id : Option String)
    (fresh : String) : String :=
  let result := process_agent_query rt query "default_user" session_id
    "book_assistant" fresh
  if result.status == "success" then result.response
  else "Error: " ++ pyStrOfOpt result.error

/-- Request body of `POST /query` (pydantic `QueryRequest`; `user_id`
defaults to `"default_user"`, `session_id` to `None`). -/
structure QueryRequest where
  query : String
  session_id : Option String
  user_id : String
deriving DecidableEq, Repr

/-- Response body of `POST /query` (pydantic `QueryResponse`); `session_id`
is a required, non-optional string field. -/
structure QueryResponse where
  response : String
  session_id : String
  status : String
  error : Option String
deriving DecidableEq, Repr

/-- Text of the `ValidationError` pydantic raises when `QueryResponse` is
constructed with `session_id=None` for its required `str` field (the exact
wording is immaterial; the claims only use that this exception text, raised
inside the endpoint, is what the HTTP layer reports). -/
def pydanticValidationMsg : String :=
  "1 validation error for QueryResponse: session_id must be a string"

/-- Construction of a pydantic `QueryResponse`: validation rejects a `None`
`session_id` by raising (`Except.error`), and accepts everything else. -/
def mkQueryResponse (response : String) (session_id : Option String)
    (status : String) (error : Option String) : Except String QueryResponse :=
  match session_id with
  | some sid => .ok ⟨response, sid, status, error⟩
  | none => .error pydanticValidationMsg

/-- Outcome of one HTTP endpoint call: a normal response body, or the
`HTTPException(status_code=500, detail=...)` raised by the handler's
`except` clause. -/
inductive HttpResult (α : Type) where
  | ok (body : α)
  | serverError (detail : String)
deriving DecidableEq, Repr

/-- Shallow embedding of the `POST /query` handler `query_agent` from
`api.py`: the façade result is re-packaged as a `QueryResponse`; the only
statement inside the handler's `try` that can raise is that construction,
and its exception text becomes the HTTP 500 detail. -/
def query_agent (rt : Runtime) (fresh : String) (request : QueryRequest) :
    HttpResult QueryResponse :=
  let result := process_agent_query rt request.query request.user_id
    request.session_id "book_assistant" fresh
  match mkQueryResponse result.response result.session_id result.status
    result.error with
  | .ok r => .ok r
  | .error e => .serverError e

/-- Shallow embedding of the `POST /ask` handler `ask_agent_simple` from
`api.py`: `ask_agent` always returns a string, and wrapping it in
`SimpleQueryResponse` cannot raise, so the handler always answers normally. -/
def ask_agent_simple (rt : Runtime) (fresh : String) (query : String)
    (session_id : Option String) : HttpResult String :=
  .ok (ask_agent rt query session_id fresh)

/-- Handling of one item of `POST /query/batch`: the body of the `for` loop
of `batch_query` in `api.py` — on any exception the `except` clause appends
`QueryResponse(response="", session_id=query_request.session_id or "",
status="error", error=str(e))` instead. -/
def batchItem (rt : Runtime) (fresh : String) (request : QueryRequest) :
    QueryResponse :=
  let result := process_agent_query rt request.query request.user_id
    request.session_id "book_assistant" fresh
  match mkQueryResponse result.response result.session_id result.status
    result.error with
  | .ok r => r
  | .error e => ⟨"", request.session_id.getD "", "error", some e⟩

/-- Shallow embedding of the `POST /query/batch` handler `batch_query` from
`api.py`: the queries are processed one after the other in input order, each
appending exactly one `QueryResponse`.  `freshs i` is the session id the
`i`-th call's `create_session` would mint; `i` is the position counter. -/
def batch_query (rt : Runtime) (freshs : Nat → String) :
    Nat → List QueryRequest → List QueryResponse
  | _, [] => []
  | i, request :: rest =>
    batchItem rt (freshs i) request :: batch_query rt freshs (i + 1) rest

/-! Concrete inputs used to witness the theorems below. -/

/-- A runtime whose run raises `"boom"` before yielding any event. -/
def rtFail : Runtime := fun _ _ => ([], some "boom")

/-- A runtime that answers every query with one final text event. -/
def rtOk : Runtime := fun _ q => ([⟨[some ("ans:" ++ q)], true⟩], none)

/-- A runtime whose run raises for the query `"bad"` and answers normally
otherwise. -/
def rtSel : Runtime := fun _ q =>
  if q == "bad" then ([], some "boom") else ([⟨[some ("ans:" ++ q)], true⟩], none)

/-- A runtime that answers with a text that itself starts with `"Error: "`. -/
def rtErrLook : Runtime := fun _ _ => ([⟨[some "Error: boom"], true⟩], none)

/-- A fallback fetch that is never expected to be consulted. -/
def fbNone : Fallback := fun _ => .error "unreachable fallback"

/-- A fallback fetch answering HTTP 200 with body `[9]`. -/
def fb200 : Fallback := fun _ => .ok (200, [9])

/-- A fallback fetch answering HTTP 403 with an empty body. -/
def fb403 : Fallback := fun _ => .ok (403, [])

/-- A fallback fetch that itself raises (a network failure inside
`requests.get`). -/
def fbRaise : Fallback := fun _ => .error "connection refused"

/-- A primary store on which every operation raises `"autherr"`. -/
def gRaise : GcsBehavior :=
  ⟨fun _ => .error "autherr", fun _ => .error "autherr",
    fun _ => .error "autherr", .error "autherr", fun _ => .error "autherr"⟩

/-- A bucket holding pages 1 and 3 of book `"bk"` plus an unparsable page
file name. -/
def bktGap : Bucket :=
  ⟨[("bk/page_1.png", [1]), ("bk/page_3.png", [3]), ("bk/page_x.png", [9])]⟩

/-- A bucket whose only object under the prefix `"b/"` is not a page file. -/
def bktNotes : Bucket := ⟨[("b/notes.txt", [0])]⟩

/-- A bucket with two top-level prefixes and one key without a slash. -/
def bktMixed : Bucket :=
  ⟨[("x/page_1.png", [5]), ("y/a.txt", [6]), ("noslash", [7])]⟩

/-- A one-page bucket for the round-trip witness. -/
def bktOne : Bucket := ⟨[("bk/page_2.png", [1, 2, 3])]⟩

/-- Fresh-id supply used by the batch witness. -/
def freshF : Nat → String := fun i => "f" ++ toString i

/-- Three batch requests whose second one makes the runtime `rtSel` raise. -/
def reqs3 : List QueryRequest :=
  [⟨"a", none, "u"⟩, ⟨"bad", some "sB", "u"⟩, ⟨"c", none, "u"⟩]

/-! Helper lemmas about the embedded definitions. -/

theorem mem_insertSorted (x s : String) (l : List String) :
    s ∈ insertSorted x l ↔ s = x ∨ s ∈ l := by
  induction l with
  | nil => simp [insertSorted]
  | cons y ys ih =>
    by_cases hc : strLe x y = true
    · simp [insertSorted, hc]
    · simp only [insertSorted, hc]
      simp [List.mem_cons, ih]
      tauto

theorem mem_sortStrings (s : String) (l : List String) :
    s ∈ sortStrings l ↔ s ∈ l := by
  induction l with
  | nil => simp [sortStrings]
  | cons x xs ih => simp [sortStrings, mem_insertSorted, ih]

theorem mem_dedupStr (l : List String) : ∀ s, s ∈ dedupStr l ↔ s ∈ l := by
  induction l with
  | nil => intro s; simp [dedupStr]
  | cons x xs ih =>
    intro s
    rw [List.mem_cons, ← ih s]
    simp only [dedupStr]
    by_cases hc : (dedupStr xs).contains x
    · rw [if_pos hc]
      have hx : x ∈ dedupStr xs := List.elem_iff.mp hc
      constructor
      · exact Or.inr
      · rintro (he | hs)
        · rw [he]; exact hx
        · exact hs
    · rw [if_neg hc, List.mem_cons]

theorem mem_availableBooks (s : String) (names : List String) :
    s ∈ availableBooks names ↔ ∃ nm ∈ names, topPrefixOf nm = some s := by
  rw [availableBooks, mem_sortStrings, mem_dedupStr, List.mem_filterMap]

theorem strIsPrefix_slash_blob_path (book : String) (n : Int) :
    strIsPrefix (book ++ "/") (blob_path book n) = true := by
  rw [strIsPrefix, blob_path, List.isPrefixOf_iff_prefix, String.data_append]
  exact List.prefix_append _ _

theorem strIsPrefix_slash_of_page (book s : String)
    (h : strIsPrefix (book ++ "/page_") s = true) :
    strIsPrefix (book ++ "/") s = true := by
  rw [strIsPrefix, List.isPrefixOf_iff_prefix] at h ⊢
  refine List.IsPrefix.trans ?_ h
  rw [String.data_append, String.data_append]
  rw [List.prefix_append_right_inj]
  decide

theorem Bucket.blobExists_eq_false (b : Bucket) (key : String)
    (h : ∀ kv ∈ b.blobs, (kv.1 == key) = false) :
    b.blobExists key = false := by
  rw [Bucket.blobExists, List.any_eq_false]
  intro kv hkv
  simp [h kv hkv]

theorem Bucket.listNames_eq_nil (b : Bucket) (p : String)
    (h : ∀ kv ∈ b.blobs, strIsPrefix p kv.1 = false) :
    b.listNames p = [] := by
  rw [Bucket.listNames, List.filter_eq_nil_iff]
  intro nm hnm
  rw [Bucket.names, List.mem_map] at hnm
  obtain ⟨kv, hkv, hfst⟩ := hnm
  subst hfst
  simp [h kv hkv]

theorem filterMap_filter_isSome {α β : Type} (f : α → Option β) (l : List α) :
    l.filterMap f = (l.filter (fun a => (f a).isSome)).filterMap f := by
  induction l with
  | nil => rfl
  | cons x xs ih =>
    cases hf : f x with
    | none => simp [List.filterMap_cons, List.filter_cons, hf, ih]
    | some b => simp [List.filterMap_cons, List.filter_cons, hf, ih]

theorem gcsInner_inl_shape (g : GcsBehavior) (book : String) (n : Int)
    (r : PageResult) (h : gcsInner g book n = .ok (.inl r)) :
    r.status = "error" ∧ r.image = none ∧ r.book_name = book
      ∧ r.page_number = n := by
  simp only [gcsInner] at h
  repeat' split at h
  all_goals
    simp_all [bookNotFoundResult, pageNotFoundResult]
  all_goals subst h
  all_goals simp

theorem process_agent_query_eq (rt : Runtime) (query user_id : String)
    (session_id : Option String) (app_name fresh : String) :
    process_agent_query rt query user_id session_id app_name fresh
      = match drainStream (rt [] query).1 (rt [] query).2 with
        | .ok response_parts =>
          ⟨String.join response_parts, some fresh, "success", none⟩
        | .error e => ⟨"", session_id, "error", some e⟩ := by
  cases session_id <;> rfl

/-! Claim theorems. -/

/-- C1: the claim promises that a `session_id` returned by one call can be
resolved and reused by a later call, so that the later query is handled in
the same session and can be informed by the earlier one.  On the code this
is impossible: `process_agent_query` constructs a brand-new
`InMemorySessionService()` inside every call, so the supplied session id is
never found and a fresh empty session is created.  Consequently, for every
runtime and every supplied id, the call's response, status and error are
identical to those of a call that omitted `session_id` altogether (the
runtime sees an empty history either way, so the second query cannot be
informed by the first), and on success the returned session id is the
freshly minted one, not the supplied one. -/
theorem process_agent_query_ignores_supplied_session_id (rt : Runtime)
    (query user_id sid app_name fresh : String) :
    (process_agent_query rt query user_id (some sid) app_name fresh).response
      = (process_agent_query rt query user_id none app_name fresh).response ∧
    (process_agent_query rt query user_id (some sid) app_name fresh).status
      = (process_agent_query rt query user_id none app_name fresh).status ∧
    (process_agent_query rt query user_id (some sid) app_name fresh).error
      = (process_agent_query rt query user_id none app_name fresh).error ∧
    ((process_agent_query rt query user_id (some sid) app_name
        fresh).status = "success" →
      (process_agent_query rt query user_id (some sid) app_name
        fresh).session_id = some fresh) := by
  rw [process_agent_query_eq, process_agent_query_eq]
  cases drainStream (rt [] query).1 (rt [] query).2 with
  | ok parts => exact ⟨rfl, rfl, rfl, fun _ => rfl⟩
  | error e => exact ⟨rfl, rfl, rfl, fun h => absurd h (by simp)⟩

theorem process_agent_query_ignores_supplied_session_id_witness :
    (process_agent_query rtOk "q" "u" (some "stale") "app" "fN").session_id
      = some "fN" :=
  (process_agent_query_ignores_supplied_session_id rtOk "q" "u" "stale"
    "app" "fN").2.2.2 rfl

/-- C6: whenever the dispatched event stream raises an exception `e` before a
final event is seen (covering a raise at dispatch and a raise while
draining), `process_agent_query` returns exactly
`{response: "", session_id: <original input session_id>, status: "error",
error: e}`; being a total function, it never raises past its boundary. -/
theorem process_agent_query_exception_result (rt : Runtime)
    (query user_id : String) (session_id : Option String)
    (app_name fresh : String) (e : String)
    (h : drainStream (rt [] query).1 (rt [] query).2 = .error e) :
    process_agent_query rt query user_id session_id app_name fresh
      = ⟨"", session_id, "error", some e⟩ := by
  rw [process_agent_query_eq, h]

theorem process_agent_query_exception_result_witness :
    process_agent_query rtFail "q" "u" (some "sid0") "app" "f0"
      = ⟨"", some "sid0", "error", some "boom"⟩ :=
  process_agent_query_exception_result rtFail "q" "u" (some "sid0") "app" "f0"
    "boom" rfl

/-- C2 (counterexample): a façade-level failure is NOT always returned as a
normal response body.  With a request that omits `session_id` and a runtime
that raises, the façade returns a result with status `"error"` and a null
session id; constructing the required-`str` `session_id` field of
`QueryResponse` from it raises inside the endpoint, so the caller receives
HTTP 500 with the validation-error text — contradicting the claim's "for
every input, including requests that omit session_id". -/
theorem query_agent_http500_on_facade_error_without_session_id :
    (process_agent_query rtFail "q" "default_user" none "book_assistant"
        "f0").status = "error" ∧
    query_agent rtFail "f0" ⟨"q", none, "default_user"⟩
      = .serverError pydanticValidationMsg := ⟨rfl, rfl⟩

/-- C2 (amended): for every request that supplies a `session_id`, a façade
result — in particular a façade-level failure — is returned as a normal
`{response, session_id, status, error}` body carrying the façade result's
fields; when `session_id` is omitted and the façade fails, the endpoint
instead raises while building the response model and answers HTTP 500 with
the validation-error text as detail. -/
theorem query_agent_facade_error_handling (rt : Runtime) (fresh : String)
    (request : QueryRequest) :
    (∀ sid, request.session_id = some sid →
      ∃ outSid : String,
        query_agent rt fresh request = .ok
          ⟨(process_agent_query rt request.query request.user_id
              request.session_id "book_assistant" fresh).response, outSid,
            (process_agent_query rt request.query request.user_id
              request.session_id "book_assistant" fresh).status,
            (process_agent_query rt request.query request.user_id
              request.session_id "book_assistant" fresh).error⟩) ∧
    (request.session_id = none →
      (process_agent_query rt request.query request.user_id
          request.session_id "book_assistant" fresh).status = "error" →
      query_agent rt fresh request = .serverError pydanticValidationMsg) := by
  have he := process_agent_query_eq rt request.query request.user_id
    request.session_id "book_assistant" fresh
  constructor
  · intro sid hsid
    cases hd : drainStream (rt [] request.query).1 (rt [] request.query).2 with
    | ok parts =>
      rw [hd] at he
      exact ⟨fresh, by simp [query_agent, he, mkQueryResponse]⟩
    | error e =>
      rw [hd] at he
      rw [hsid] at he
      exact ⟨sid, by simp [query_agent, hsid, he, mkQueryResponse]⟩
  · intro hnone hstat
    cases hd : drainStream (rt [] request.query).1 (rt [] request.query).2 with
    | ok parts =>
      rw [hd] at he
      rw [he] at hstat
      exact absurd hstat (by simp)
    | error e =>
      rw [hd] at he
      rw [hnone] at he
      simp [query_agent, hnone, he, mkQueryResponse]

theorem query_agent_facade_error_handling_witness :
    (∃ outSid : String,
      query_agent rtFail "f0" ⟨"q", some "s1", "default_user"⟩ = .ok
        ⟨(process_agent_query rtFail "q" "default_user" (some "s1")
            "book_assistant" "f0").response, outSid,
          (process_agent_query rtFail "q" "default_user" (some "s1")
            "book_assistant" "f0").status,
          (process_agent_query rtFail "q" "default_user" (some "s1")
            "book_assistant" "f0").error⟩) ∧
    query_agent rtFail "f0" ⟨"q2", none, "default_user"⟩
      = .serverError pydanticValidationMsg :=
  ⟨(query_agent_facade_error_handling rtFail "f0"
      ⟨"q", some "s1", "default_user"⟩).1 "s1" rfl,
   (query_agent_facade_error_handling rtFail "f0"
      ⟨"q2", none, "default_user"⟩).2 rfl rfl⟩

/-- C10: `ask_agent` is a total function into strings; it returns the façade
result's response text when the façade status is `"success"` and otherwise
the façade error prefixed with `"Error: "` (so `POST /ask`, which always
answers normally with that string, reports failures in-band); and the two
cases are indistinguishable: a successful run whose answer happens to start
with `"Error: "` produces the very same string as a failing run. -/
theorem ask_agent_in_band_error_reporting :
    (∀ (rt : Runtime) (q : String) (sid : Option String) (fresh : String),
      ((process_agent_query rt q "default_user" sid "book_assistant"
          fresh).status = "success" →
        ask_agent rt q sid fresh
          = (process_agent_query rt q "default_user" sid "book_assistant"
              fresh).response) ∧
      ((process_agent_query rt q "default_user" sid "book_assistant"
          fresh).status ≠ "success" →
        ask_agent rt q sid fresh
          = "Error: " ++ pyStrOfOpt (process_agent_query rt q "default_user"
              sid "book_assistant" fresh).error) ∧
      ask_agent_simple rt fresh q sid = .ok (ask_agent rt q sid fresh)) ∧
    (∃ rtS rtE : Runtime,
      (process_agent_query rtS "q" "default_user" none "book_assistant"
          "f").status = "success" ∧
      (process_agent_query rtE "q" "default_user" none "book_assistant"
          "f").status = "error" ∧
      ask_agent rtS "q" none "f" = ask_agent rtE "q" none "f") := by
  constructor
  · intro rt q sid fresh
    refine ⟨fun h => ?_, fun h => ?_, rfl⟩
    · simp [ask_agent, h]
    · simp [ask_agent, beq_iff_eq, h]
  · exact ⟨rtErrLook, rtFail, rfl, rfl, by decide⟩

theorem ask_agent_in_band_error_reporting_witness :
    ask_agent rtFail "q" (some "s") "f"
      = "Error: " ++ pyStrOfOpt (process_agent_query rtFail "q"
          "default_user" (some "s") "book_assistant" "f").error :=
  (ask_agent_in_band_error_reporting.1 rtFail "q" (some "s") "f").2.1
    (by decide)

/-- C4: whenever the store holds an object at the key
`"{book_name}/page_{page_number}.png"`, `get_book_page` (in its deployed
GCS mode) succeeds with an inline image payload equal to the stored bytes
for that exact key, tagged `"image/png"` and carrying the requested book
name and page number. -/
theorem get_book_page_roundtrip (b : Bucket) (fetchUrl : Fallback)
    (localFiles : List (String × List Nat)) (book : String) (n : Int)
    (image_bytes : List Nat)
    (h : b.download? (blob_path book n) = some image_bytes) :
    get_book_page true (Bucket.behavior b) fetchUrl localFiles book n
      = successResult book n image_bytes "GCS" := by
  have hex : b.blobExists (blob_path book n) = true := by
    rw [Bucket.download?, Option.map_eq_some'] at h
    obtain ⟨kv, hfind, _⟩ := h
    rw [Bucket.blobExists, List.any_eq_true]
    have hp := List.find?_some hfind
    have hm := List.mem_of_find?_eq_some hfind
    exact ⟨kv, hm, hp⟩
  have hinner : gcsInner (Bucket.behavior b) book n = .ok (.inr image_bytes) := by
    simp only [gcsInner, Bucket.behavior, hex, h]
  simp [get_book_page, hinner]

theorem get_book_page_roundtrip_witness :
    get_book_page true (Bucket.behavior bktOne) fbNone [] "bk" 2
      = successResult "bk" 2 [1, 2, 3] "GCS" :=
  get_book_page_roundtrip bktOne fbNone [] "bk" 2 [1, 2, 3] (by decide)

/-- C3 (counterexample): a slug with zero page-pattern objects does NOT
always produce a book-not-found outcome.  In a store whose only object
under the prefix `"b/"` is `"b/notes.txt"` — so `"b"` has zero stored
pages in the claim's sense — the lookup falls through to a page-not-found
outcome with range `"none"`, because the `max_results=1` probe of the
prefix `"b/"` is non-empty. -/
theorem get_book_page_pageless_slug_not_bookNotFound :
    bktNotes.blobs.all (fun kv => !(strIsPrefix "b/page_" kv.1)) = true ∧
    get_book_page true (Bucket.behavior bktNotes) fbNone [] "b" 1
      = ⟨"error", .pageNotFound 1 "b" none, none, "b", 1⟩ := ⟨rfl, rfl⟩

/-- C3 (amended): for every slug with no stored objects at all under its
prefix `"{slug}/"`, `get_book_page` returns the book-not-found error
outcome naming the requested slug, and the candidate book slugs it reports
are exactly the top-level key segments (the part before the first `/`) of
the keys present in the store that contain a `/`. -/
theorem get_book_page_book_not_found (b : Bucket) (fetchUrl : Fallback)
    (localFiles : List (String × List Nat)) (book : String) (n : Int)
    (h : ∀ kv ∈ b.blobs, strIsPrefix (book ++ "/") kv.1 = false) :
    get_book_page true (Bucket.behavior b) fetchUrl localFiles book n
      = bookNotFoundResult book n (availableBooks b.names) ∧
    ∀ s, s ∈ availableBooks b.names
      ↔ ∃ kv ∈ b.blobs, topPrefixOf kv.1 = some s := by
  constructor
  · have hex : b.blobExists (blob_path book n) = false := by
      rw [Bucket.blobExists, List.any_eq_false]
      intro kv hkv hbeq
      have hkey : kv.1 = blob_path book n := eq_of_beq hbeq
      have hp := h kv hkv
      rw [hkey, strIsPrefix_slash_blob_path] at hp
      exact absurd hp (by simp)
    have hlist : b.listNames (book ++ "/page_") = [] := by
      apply Bucket.listNames_eq_nil
      intro kv hkv
      cases hp : strIsPrefix (book ++ "/page_") kv.1 with
      | false => rfl
      | true =>
        have hs := strIsPrefix_slash_of_page book kv.1 hp
        rw [h kv hkv] at hs
        exact absurd hs (by simp)
    have hfirst : b.listNames (book ++ "/") = [] :=
      Bucket.listNames_eq_nil b (book ++ "/") h
    have hinner : gcsInner (Bucket.behavior b) book n
        = .ok (.inl (bookNotFoundResult book n (availableBooks b.names))) := by
      simp only [gcsInner, Bucket.behavior, hex, hlist, hfirst]
      rfl
    simp [get_book_page, hinner]
  · intro s
    rw [mem_availableBooks]
    constructor
    · rintro ⟨nm, hnm, hp⟩
      rw [Bucket.names, List.mem_map] at hnm
      obtain ⟨kv, hkv, rfl⟩ := hnm
      exact ⟨kv, hkv, hp⟩
    · rintro ⟨kv, hkv, hp⟩
      refine ⟨kv.1, ?_, hp⟩
      rw [Bucket.names, List.mem_map]
      exact ⟨kv, hkv, rfl⟩

theorem get_book_page_book_not_found_witness :
    get_book_page true (Bucket.behavior bktMixed) fbNone [] "zz" 3
      = bookNotFoundResult "zz" 3 (availableBooks bktMixed.names) ∧
    ("x" ∈ availableBooks bktMixed.names
      ↔ ∃ kv ∈ bktMixed.blobs, topPrefixOf kv.1 = some "x") :=
  ⟨(get_book_page_book_not_found bktMixed fbNone [] "zz" 3 (by decide)).1,
   (get_book_page_book_not_found bktMixed fbNone [] "zz" 3 (by decide)).2 "x"⟩

/-- C7: for a slug whose listing yields parsed page numbers with minimum `a`
and maximum `bmax`, and a requested page whose object key does not exist
(including a page inside an internal gap), `get_book_page` returns the
page-not-found error outcome reporting the requested page number and the
inclusive range `a`–`bmax`; and names whose trailing page numbers fail to
parse never contribute to the parsed page list (filtering them away first
changes nothing). -/
theorem get_book_page_page_not_found_range (b : Bucket) (fetchUrl : Fallback)
    (localFiles : List (String × List Nat)) (book : String) (n a bmax : Int)
    (hex : b.blobExists (blob_path book n) = false)
    (hmin : (parsePages (b.listNames (book ++ "/page_"))).min? = some a)
    (hmax : (parsePages (b.listNames (book ++ "/page_"))).max? = some bmax) :
    get_book_page true (Bucket.behavior b) fetchUrl localFiles book n
      = ⟨"error", .pageNotFound n book (some (a, bmax)), none, book, n⟩ ∧
    ∀ l : List String,
      parsePages l = parsePages (l.filter (fun s => (parsePageNum s).isSome)) := by
  constructor
  · have hne : (parsePages (b.listNames (book ++ "/page_"))).isEmpty = false := by
      cases hl : parsePages (b.listNames (book ++ "/page_")) with
      | nil => rw [hl] at hmin; simp at hmin
      | cons x xs => simp
    have hinner : gcsInner (Bucket.behavior b) book n
        = .ok (.inl (pageNotFoundResult book n
            (parsePages (b.listNames (book ++ "/page_"))))) := by
      simp only [gcsInner, Bucket.behavior, hex, hne]
      simp [hne]
    simp [get_book_page, hinner, pageNotFoundResult, pageRangeOf, hmin, hmax]
  · intro l
    exact filterMap_filter_isSome parsePageNum l

theorem get_book_page_page_not_found_range_witness :
    get_book_page true (Bucket.behavior bktGap) fbNone [] "bk" 2
      = ⟨"error", .pageNotFound 2 "bk" (some (1, 3)), none, "bk", 2⟩ ∧
    parsePages ["bk/page_9.png", "garbage"]
      = parsePages (["bk/page_9.png", "garbage"].filter
          (fun s => (parsePageNum s).isSome)) :=
  ⟨(get_book_page_page_not_found_range bktGap fbNone [] "bk" 2 1 3
      (by decide) (by decide) (by decide)).1,
   (get_book_page_page_not_found_range bktGap fbNone [] "bk" 2 1 3
      (by decide) (by decide) (by decide)).2 ["bk/page_9.png", "garbage"]⟩

/-- Shape of every `get_book_page` result, over every mode, every primary
store behaviour, every fallback behaviour and every local fixture: the
status is `"success"` or `"error"`, the echoed book name and page number are
the arguments unchanged, and an image payload is present exactly on
success. -/
theorem get_book_page_shape_aux (use_gcs : Bool) (g : GcsBehavior)
    (fetchUrl : Fallback) (localFiles : List (String × List Nat))
    (book : String) (n : Int) :
    ((get_book_page use_gcs g fetchUrl localFiles book n).status = "success"
      ∨ (get_book_page use_gcs g fetchUrl localFiles book n).status
          = "error") ∧
    (get_book_page use_gcs g fetchUrl localFiles book n).book_name = book ∧
    (get_book_page use_gcs g fetchUrl localFiles book n).page_number = n ∧
    ((get_book_page use_gcs g fetchUrl localFiles book n).image.isSome
      ↔ (get_book_page use_gcs g fetchUrl localFiles book n).status
          = "success") := by
  cases use_gcs with
  | false =>
    cases hl : lookupLocal localFiles (book ++ "/" ++ page_filename n) with
    | none => simp [get_book_page, hl]
    | some bs => simp [get_book_page, hl, successResult]
  | true =>
    cases hg : gcsInner g book n with
    | ok v =>
      cases v with
      | inl r =>
        have hs := gcsInner_inl_shape g book n r hg
        simp [get_book_page, hg, hs.1, hs.2.1, hs.2.2.1, hs.2.2.2]
      | inr bs => simp [get_book_page, hg, successResult]
    | error ge =>
      cases hf : fetchUrl (publicUrl book n) with
      | error e2 => simp [get_book_page, hg, hf, storageErrorResult]
      | ok sc =>
        by_cases h200 : sc.1 = 200
        · simp [get_book_page, hg, hf, h200, successResult]
        · simp [get_book_page, hg, hf, h200, storageErrorResult]

/-- C9: on every path — success, book not found, page not found, storage
error, and local mode — the dictionary returned by `get_book_page` carries
`status`, `message`, `book_name` and `page_number` (all present by the shape
of `PageResult`), `book_name` and `page_number` echo the arguments
unchanged, `status` is `"success"` or `"error"`, and the `image` key is
present if and only if `status` is `"success"`. -/
theorem get_book_page_result_shape (use_gcs : Bool) (g : GcsBehavior)
    (fetchUrl : Fallback) (localFiles : List (String × List Nat))
    (book : String) (n : Int) :
    (get_book_page use_gcs g fetchUrl localFiles book n).book_name = book ∧
    (get_book_page use_gcs g fetchUrl localFiles book n).page_number = n ∧
    ((get_book_page use_gcs g fetchUrl localFiles book n).status = "success"
      ∨ (get_book_page use_gcs g fetchUrl localFiles book n).status
          = "error") ∧
    ((get_book_page use_gcs g fetchUrl localFiles book n).image.isSome
      ↔ (get_book_page use_gcs g fetchUrl localFiles book n).status
          = "success") := by
  have hs := get_book_page_shape_aux use_gcs g fetchUrl localFiles book n
  exact ⟨hs.2.1, hs.2.2.1, hs.1, hs.2.2.2⟩

/-- C5: `get_book_page` is total at its boundary — whatever the primary
store does, the result is a structured dictionary with status `"success"`
or `"error"` (the Lean embedding is a total function, so nothing is ever
raised past the boundary).  When the primary-store path raises `ge`, the
same key is retried through the public unauthenticated URL: a 200 answer
turns into a success carrying the fetched bytes; a non-200 answer produces
the storage-error outcome whose message `"Failed to fetch from GCS: " ++ ge`
embeds the original error; but when the fallback fetch itself raises `e2`,
the storage-error outcome carries `e2` alone. -/
theorem get_book_page_total_with_fallback (g : GcsBehavior)
    (fetchUrl : Fallback) (localFiles : List (String × List Nat))
    (book : String) (n : Int) :
    ((get_book_page true g fetchUrl localFiles book n).status = "success"
      ∨ (get_book_page true g fetchUrl localFiles book n).status
          = "error") ∧
    (∀ ge, gcsInner g book n = .error ge →
      (∀ content, fetchUrl (publicUrl book n) = .ok (200, content) →
        get_book_page true g fetchUrl localFiles book n
          = successResult book n content "GCS") ∧
      (∀ sc content, fetchUrl (publicUrl book n) = .ok (sc, content) →
        sc ≠ 200 →
        get_book_page true g fetchUrl localFiles book n
          = storageErrorResult book n ("Failed to fetch from GCS: " ++ ge) ∧
        ge.data <:+: ("Failed to fetch from GCS: " ++ ge).data) ∧
      (∀ e2, fetchUrl (publicUrl book n) = .error e2 →
        get_book_page true g fetchUrl localFiles book n
          = storageErrorResult book n e2)) := by
  refine ⟨(get_book_page_shape_aux true g fetchUrl localFiles book n).1,
    fun ge hge => ⟨fun content hf => ?_, fun sc content hf hne => ⟨?_, ?_⟩,
      fun e2 hf => ?_⟩⟩
  · simp [get_book_page, hge, hf]
  · simp [get_book_page, hge, hf, hne]
  · rw [String.data_append]
    exact (List.suffix_append _ _).isInfix
  · simp [get_book_page, hge, hf]

theorem get_book_page_total_with_fallback_witness :
    get_book_page true gRaise fb200 [] "bk" 1
      = successResult "bk" 1 [9] "GCS" :=
  ((get_book_page_total_with_fallback gRaise fb200 [] "bk" 1).2 "autherr"
    rfl).1 [9] rfl

/-- C5 (counterexample): when the public-URL fallback itself raises — a
plain network failure of `requests.get` — the storage-error outcome embeds
the fallback's error and loses the original primary-store error entirely:
with a primary store raising `"autherr"` and a fallback raising
`"connection refused"`, the returned message carries `"connection refused"`
and the original `"autherr"` occurs nowhere in it. -/
theorem get_book_page_fallback_error_loses_original :
    gcsInner gRaise "bk" 1 = .error "autherr" ∧
    get_book_page true gRaise fbRaise [] "bk" 1
      = storageErrorResult "bk" 1 "connection refused" ∧
    ¬ ("autherr".data <:+: "connection refused".data) :=
  ⟨rfl, rfl, by decide⟩

theorem batch_query_length (rt : Runtime) (freshs : Nat → String) :
    ∀ (reqs : List QueryRequest) (i0 : Nat),
      (batch_query rt freshs i0 reqs).length = reqs.length := by
  intro reqs
  induction reqs with
  | nil => intro i0; rfl
  | cons r rest ih =>
    intro i0
    simp [batch_query, ih (i0 + 1)]

theorem batch_query_getElem? (rt : Runtime) (freshs : Nat → String) :
    ∀ (reqs : List QueryRequest) (i0 i : Nat),
      (batch_query rt freshs i0 reqs)[i]?
        = (reqs[i]?).map (fun r => batchItem rt (freshs (i0 + i)) r) := by
  intro reqs
  induction reqs with
  | nil => intro i0 i; simp [batch_query]
  | cons r rest ih =>
    intro i0 i
    cases i with
    | zero => simp [batch_query]
    | succ j =>
      simp only [batch_query, List.getElem?_cons_succ]
      rw [ih (i0 + 1) j]
      have harith : i0 + 1 + j = i0 + (j + 1) := by omega
      rw [harith]

/-- C8: `POST /query/batch` returns exactly one response per input, in input
order: the output list has the input's length and its `i`-th entry is the
handling of the `i`-th request alone (so a failure while handling one query
cannot abort or alter the others); and when handling one request raises
(`mkQueryResponse` fails), that request's entry is the error entry
`{response: "", session_id: <input id or "">, status: "error",
error: str(e)}`. -/
theorem batch_query_semantics (rt : Runtime) (freshs : Nat → String)
    (reqs : List QueryRequest) :
    (batch_query rt freshs 0 reqs).length = reqs.length ∧
    (∀ i : Nat, (batch_query rt freshs 0 reqs)[i]?
      = (reqs[i]?).map (fun r => batchItem rt (freshs i) r)) ∧
    (∀ (request : QueryRequest) (fresh e : String),
      mkQueryResponse
        (process_agent_query rt request.query request.user_id
          request.session_id "book_assistant" fresh).response
        (process_agent_query rt request.query request.user_id
          request.session_id "book_assistant" fresh).session_id
        (process_agent_query rt request.query request.user_id
          request.session_id "book_assistant" fresh).status
        (process_agent_query rt request.query request.user_id
          request.session_id "book_assistant" fresh).error = .error e →
      batchItem rt fresh request
        = ⟨"", request.session_id.getD "", "error", some e⟩) := by
  refine ⟨batch_query_length rt freshs reqs 0, fun i => ?_,
    fun request fresh e h => ?_⟩
  · rw [batch_query_getElem? rt freshs reqs 0 i]
    simp
  · simp only [batchItem]
    rw [h]

theorem batch_query_semantics_witness :
    (batch_query rtSel freshF 0 reqs3).length = 3 ∧
    (batch_query rtSel freshF 0 reqs3)[1]?
      = ((reqs3[1]?).map (fun r => batchItem rtSel (freshF 1) r)) ∧
    batchItem rtSel "f9" ⟨"bad", none, "u"⟩
      = ⟨"", "", "error", some pydanticValidationMsg⟩ :=
  ⟨by rw [(batch_query_semantics rtSel freshF reqs3).1]; rfl,
   (batch_query_semantics rtSel freshF reqs3).2.1 1,
   (batch_query_semantics rtSel freshF reqs3).2.2 ⟨"bad", none, "u"⟩ "f9"
     pydanticValidationMsg rfl⟩
